import Mathlib

/-!
Verification of the troccomcp server core: a shallow embedding of the
HTTP client wrapper (`troccoRequest`), the cursor-pagination aggregator
(`withPagination`), the two tool operations (`listConnections`,
`createDatamartDefinition`), the zod input validation, and the call-tool
dispatch, together with theorems settling the specification claims.

Modelling conventions:
- JavaScript runtime values are modelled by `JsVal`, which includes an
  `undefined` constructor (JavaScript `undefined`) so that `JSON.stringify`
  field dropping, optional chaining, and truthiness are faithful.
- JSON numbers are modelled as integers; no claim depends on non-integer
  numeric values.
- The remote server is modelled as the list of responses it returns to
  the successive requests, each response carrying an HTTP status and the
  parsed body; `fetch` side effects are modelled by a trace of issued
  requests returned alongside the result.
-/

/-- JavaScript runtime value (the subset reachable in this program). -/
inductive JsVal where
  | undefined : JsVal
  | null : JsVal
  | bool : Bool → JsVal
  | num : Int → JsVal
  | str : String → JsVal
  | arr : List JsVal → JsVal
  | obj : List (String × JsVal) → JsVal

/-- JavaScript truthiness, as used by `options.body ? ... : undefined`. -/
def JsVal.truthy : JsVal → Bool
  | .undefined => false
  | .null => false
  | .bool b => b
  | .num n => n != 0
  | .str s => s != ""
  | .arr _ => true
  | .obj _ => true

mutual
/-- Model of `JSON.stringify` as value normalization: `undefined` at top
level serializes to nothing, `undefined`-valued object fields are
dropped, `undefined` array elements become `null`. -/
def JsVal.serialize : JsVal → Option JsVal
  | .undefined => none
  | .null => some .null
  | .bool b => some (.bool b)
  | .num n => some (.num n)
  | .str s => some (.str s)
  | .arr xs => some (.arr (JsVal.serializeList xs))
  | .obj fs => some (.obj (JsVal.serializeFields fs))

/-- Serialization of array elements: `undefined` becomes `null`. -/
def JsVal.serializeList : List JsVal → List JsVal
  | [] => []
  | x :: rest => (JsVal.serialize x).getD .null :: JsVal.serializeList rest

/-- Serialization of object fields: `undefined`-valued fields are dropped. -/
def JsVal.serializeFields : List (String × JsVal) → List (String × JsVal)
  | [] => []
  | (k, v) :: rest =>
    match JsVal.serialize v with
    | none => JsVal.serializeFields rest
    | some j => (k, j) :: JsVal.serializeFields rest
end

/-- First-match association-list lookup (JavaScript object key access on
objects with distinct keys). -/
def assocLookup {α : Type} : List (String × α) → String → Option α
  | [], _ => none
  | (k, v) :: rest, key => if k = key then some v else assocLookup rest key

/-- JavaScript object member read returning `Option`: `none` models a
missing key (the access evaluates to `undefined`). -/
def jsGet (v : JsVal) (k : String) : Option JsVal :=
  match v with
  | .obj fs => assocLookup fs k
  | _ => none

/-- JavaScript member access expression `v.k` (missing key gives `undefined`). -/
def jsAccess (v : JsVal) (k : String) : JsVal :=
  (jsGet v k).getD .undefined

/-- Object-spread update of one key, as in `\x7b...base, ...extra\x7d`: an
existing key keeps its position and takes the new value, a new key is
appended at the end. -/
def setParam (ps : List (String × String)) (k v : String) : List (String × String) :=
  if ps.any (fun p => p.1 = k) then
    ps.map (fun p => if p.1 = k then (k, v) else p)
  else
    ps ++ [(k, v)]

/-- Object spread merge `\x7b...base, ...extra\x7d` over string-valued records,
as performed by the `URLSearchParams` construction in `withPagination`. -/
def mergeParams (base extra : List (String × String)) : List (String × String) :=
  extra.foldl (fun acc kv => setParam acc kv.1 kv.2) base

/-- HTTP response as seen by `troccoRequest<T>`: a status code and the
response body already parsed at the (trusted) type `T`, mirroring the
unchecked cast `await response.json()` performed by the code. -/
structure HttpResponse (T : Type) where
  status : Nat
  body : T

/-- The options record accepted by `troccoRequest`. -/
structure RequestOptions where
  method : Option String
  body : Option JsVal

/-- Body construction in `troccoRequest`:
`options.body ? JSON.stringify(options.body) : undefined`. A present but
falsy body is dropped exactly like an absent one. -/
def serializeBody : Option JsVal → Option JsVal
  | none => none
  | some v => if v.truthy then v.serialize else none

/-- Record of one issued fetch: URL, query parameters, method, and the
serialized body (or `none` when the body field is omitted). -/
structure TraceRequest where
  url : String
  params : List (String × String)
  method : String
  body : Option JsVal

/-- The outgoing fetch built by `troccoRequest`: method defaults to GET,
body is serialized through the truthiness check. -/
def mkFetchRequest (url : String) (options : RequestOptions) : TraceRequest :=
  { url := url
  , params := []
  , method := options.method.getD "GET"
  , body := serializeBody options.body }

/-- Result handling of `troccoRequest`: a non-2xx status throws
`TROCCO API request failed: <status>` without inspecting the body, a 2xx
status returns the parsed body. -/
def troccoRequest {T : Type} (resp : HttpResponse T) : Except String T :=
  if 200 ≤ resp.status ∧ resp.status ≤ 299 then
    Except.ok resp.body
  else
    Except.error ("TROCCO API request failed: " ++ toString resp.status)

/-- Pagination response envelope `\x7b items, next_cursor \x7d`. -/
structure PaginationResponse where
  items : List JsVal
  next_cursor : Option String

/-- The query parameters and URL built by one iteration of the
`withPagination` loop for the given current cursor. -/
def mkPageRequest (url : String) (params : List (String × String))
    (options : RequestOptions) (cursor : Option String) : TraceRequest :=
  { url := url
  , params := mergeParams params
      (match cursor with
       | none => [("limit", "5")]
       | some c => [("limit", "5"), ("cursor", c)])
  , method := options.method.getD "GET"
  , body := serializeBody options.body }

/-- The do-while loop body of `withPagination`, run against the list of
responses the server returns to the successive requests. Returns `none`
when the server list is exhausted while the loop still wants another
page (no verdict is modelled for a hung fetch); otherwise returns the
thrown error or the accumulated items, together with the trace of issued
requests. -/
def withPaginationGo (url : String) (params : List (String × String))
    (options : RequestOptions) :
    Option String → List (HttpResponse PaginationResponse) →
    Option (Except String (List JsVal) × List TraceRequest)
  | _, [] => none
  | cursor, r :: rest =>
    let req := mkPageRequest url params options cursor
    match troccoRequest r with
    | .error e => some (.error e, [req])
    | .ok page =>
      match page.next_cursor with
      | none => some (.ok page.items, [req])
      | some c =>
        match withPaginationGo url params options (some c) rest with
        | none => none
        | some (.error e, reqs) => some (.error e, req :: reqs)
        | some (.ok items, reqs) => some (.ok (page.items ++ items), req :: reqs)

/-- The pagination aggregator `withPagination`: starts with a null
cursor and loops while the returned cursor is non-null. -/
def withPagination (url : String) (params : List (String × String))
    (options : RequestOptions) (server : List (HttpResponse PaginationResponse)) :
    Option (Except String (List JsVal) × List TraceRequest) :=
  withPaginationGo url params options none server

/-- The closed enumeration accepted for `connectionType`. -/
def connectionTypes : List String :=
  ["bigquery", "gcs", "google_spreadsheet", "snowflake", "mysql", "s3",
   "salesforce", "postgresql", "google_analytics4"]

/-- Projection of one raw connection record down to
`\x7b id, name, description \x7d`, as performed by `listConnections`. -/
def projectConnection (c : JsVal) : JsVal :=
  .obj
    [ ("id", jsAccess c "id")
    , ("name", jsAccess c "name")
    , ("description", jsAccess c "description") ]

/-- The `listConnections` operation: paginated fetch from
`/connections/<type>` followed by the per-item projection. -/
def listConnections (connectionType : String)
    (server : List (HttpResponse PaginationResponse)) :
    Option (Except String (List JsVal) × List TraceRequest) :=
  let url := "https://trocco.io/api/connections/" ++ connectionType
  match withPagination url [] { method := none, body := none } server with
  | none => none
  | some (.error e, reqs) => some (.error e, reqs)
  | some (.ok items, reqs) => some (.ok (items.map projectConnection), reqs)

/-- The nested bigquery option block of the validated create-definition
input (camelCase field names, as in the zod schema). -/
structure DatamartBigqueryOptionInput where
  bigqueryConnectionId : Int
  queryMode : String
  query : String
  destinationDataset : String
  destinationTable : String
  writeDisposition : String

/-- The validated input of the create-definition operation. -/
structure CreateDatamartDefinitionInput where
  name : String
  dataWarehouseType : String
  description : Option String
  isRunnableConcurrently : Bool
  datamartBigqueryOption : Option DatamartBigqueryOptionInput

/-- Lift of an optional string into a JavaScript value (`undefined` when
absent), as produced by optional chaining. -/
def jsOptStr : Option String → JsVal
  | none => .undefined
  | some s => .str s

/-- Lift of an optional number into a JavaScript value. -/
def jsOptNum : Option Int → JsVal
  | none => .undefined
  | some n => .num n

/-- The outbound request body object literal built by
`createDatamartDefinition`: camelCase input fields renamed to
snake_case, nested fields read through optional chaining
(`input.datamartBigqueryOption?.x`). -/
def buildCreateBody (input : CreateDatamartDefinitionInput) : JsVal :=
  .obj
    [ ("name", .str input.name)
    , ("data_warehouse_type", .str input.dataWarehouseType)
    , ("description", jsOptStr input.description)
    , ("is_runnable_concurrently", .bool input.isRunnableConcurrently)
    , ("datamart_bigquery_option", .obj
        [ ("bigquery_connection_id",
            jsOptNum (input.datamartBigqueryOption.map
              (fun o => o.bigqueryConnectionId)))
        , ("query_mode",
            jsOptStr (input.datamartBigqueryOption.map (fun o => o.queryMode)))
        , ("query",
            jsOptStr (input.datamartBigqueryOption.map (fun o => o.query)))
        , ("destination_dataset",
            jsOptStr (input.datamartBigqueryOption.map
              (fun o => o.destinationDataset)))
        , ("destination_table",
            jsOptStr (input.datamartBigqueryOption.map
              (fun o => o.destinationTable)))
        , ("write_disposition",
            jsOptStr (input.datamartBigqueryOption.map
              (fun o => o.writeDisposition))) ]) ]

/-- Nested option block of the remote datamart-definition response
(snake_case field names, as in the `DatamartDefinition` type). -/
structure DatamartBigqueryOptionResponse where
  bigquery_connection_id : Int
  query_mode : String
  query : String
  destination_dataset : String
  destination_table : String
  write_disposition : String

/-- The remote datamart-definition record, at the shape the code trusts
the response to have. -/
structure DatamartDefinition where
  id : Int
  name : String
  data_warehouse_type : String
  description : String
  is_runnable_concurrently : Bool
  datamart_bigquery_option : Option DatamartBigqueryOptionResponse

/-- The inbound reshaping performed by `createDatamartDefinition` on the
response: an explicit field-by-field copy. -/
def inboundMapDatamartDefinition (d : DatamartDefinition) : DatamartDefinition :=
  { id := d.id
  , name := d.name
  , data_warehouse_type := d.data_warehouse_type
  , description := d.description
  , is_runnable_concurrently := d.is_runnable_concurrently
  , datamart_bigquery_option := d.datamart_bigquery_option }

/-- JavaScript object literal for a reshaped datamart definition, as
handed to `JSON.stringify` by the call-tool handler. -/
def DatamartDefinition.toJsVal (d : DatamartDefinition) : JsVal :=
  .obj
    [ ("id", .num d.id)
    , ("name", .str d.name)
    , ("data_warehouse_type", .str d.data_warehouse_type)
    , ("description", .str d.description)
    , ("is_runnable_concurrently", .bool d.is_runnable_concurrently)
    , ("datamart_bigquery_option",
        match d.datamart_bigquery_option with
        | none => .undefined
        | some o => .obj
            [ ("bigquery_connection_id", .num o.bigquery_connection_id)
            , ("query_mode", .str o.query_mode)
            , ("query", .str o.query)
            , ("destination_dataset", .str o.destination_dataset)
            , ("destination_table", .str o.destination_table)
            , ("write_disposition", .str o.write_disposition) ]) ]

/-- The `createDatamartDefinition` operation: one POST of the renamed
body to `/datamart_definitions`, response reshaped field by field. The
given response models what the remote returns to that single POST. -/
def createDatamartDefinition (input : CreateDatamartDefinitionInput)
    (resp : HttpResponse DatamartDefinition) :
    Except String DatamartDefinition × List TraceRequest :=
  let url := "https://trocco.io/api/datamart_definitions"
  let options : RequestOptions :=
    { method := some "POST", body := some (buildCreateBody input) }
  let req := mkFetchRequest url options
  match troccoRequest resp with
  | .error e => (.error e, [req])
  | .ok d => (.ok (inboundMapDatamartDefinition d), [req])

/-- Model of `ListConnectionsInputSchema.parse`: the arguments must be
an object whose `connectionType` is a string belonging to the closed
enumeration. Error strings summarize the zod issue. -/
def parseListConnectionsInput (args : JsVal) : Except String String :=
  match args with
  | .obj fs =>
    match assocLookup fs "connectionType" with
    | some (.str ct) =>
      if ct ∈ connectionTypes then .ok ct
      else .error "validation failed: invalid enum value for connectionType"
    | _ => .error "validation failed: connectionType must be a string"
  | _ => .error "validation failed: expected object"

/-- Model of parsing the nested `datamartBigqueryOption` object of
`CreateDatamartDefinitionInputSchema`. -/
def parseDatamartBigqueryOption (v : JsVal) :
    Except String DatamartBigqueryOptionInput :=
  match v with
  | .obj fs =>
    match assocLookup fs "bigqueryConnectionId" with
    | some (.num n) =>
      match assocLookup fs "queryMode" with
      | some (.str qm) =>
        if qm ∈ ["insert"] then
          match assocLookup fs "query" with
          | some (.str q) =>
            match assocLookup fs "destinationDataset" with
            | some (.str dd) =>
              match assocLookup fs "destinationTable" with
              | some (.str dt) =>
                match assocLookup fs "writeDisposition" with
                | some (.str wd) =>
                  if wd ∈ ["append", "truncate"] then
                    .ok { bigqueryConnectionId := n, queryMode := qm, query := q
                        , destinationDataset := dd, destinationTable := dt
                        , writeDisposition := wd }
                  else .error "validation failed: invalid enum value for writeDisposition"
                | _ => .error "validation failed: writeDisposition must be a string"
              | _ => .error "validation failed: destinationTable must be a string"
            | _ => .error "validation failed: destinationDataset must be a string"
          | _ => .error "validation failed: query must be a string"
        else .error "validation failed: invalid enum value for queryMode"
      | _ => .error "validation failed: queryMode must be a string"
    | _ => .error "validation failed: bigqueryConnectionId must be a number"
  | _ => .error "validation failed: datamartBigqueryOption must be an object"

/-- Model of `CreateDatamartDefinitionInputSchema.parse`: required
`name` (non-empty string), `dataWarehouseType` in its enumeration,
optional `description`, required boolean `isRunnableConcurrently`, and
the optional nested option block. A present `undefined` value is
accepted for the optional fields, as zod optionals do. -/
def parseCreateDatamartDefinitionInput (args : JsVal) :
    Except String CreateDatamartDefinitionInput :=
  match args with
  | .obj fs =>
    match assocLookup fs "name" with
    | some (.str nm) =>
      if nm.length ≥ 1 then
        match assocLookup fs "dataWarehouseType" with
        | some (.str dwt) =>
          if dwt ∈ ["bigquery"] then
            match
              (match assocLookup fs "description" with
               | none => Except.ok (none : Option String)
               | some .undefined => Except.ok none
               | some (.str d) => Except.ok (some d)
               | some _ =>
                 Except.error "validation failed: description must be a string")
            with
            | .error e => .error e
            | .ok desc =>
              match assocLookup fs "isRunnableConcurrently" with
              | some (.bool conc) =>
                match
                  (match assocLookup fs "datamartBigqueryOption" with
                   | none =>
                     Except.ok (none : Option DatamartBigqueryOptionInput)
                   | some .undefined => Except.ok none
                   | some v =>
                     match parseDatamartBigqueryOption v with
                     | .error e => Except.error e
                     | .ok o => Except.ok (some o))
                with
                | .error e => .error e
                | .ok opt =>
                  .ok { name := nm, dataWarehouseType := dwt
                      , description := desc, isRunnableConcurrently := conc
                      , datamartBigqueryOption := opt }
              | _ =>
                .error "validation failed: isRunnableConcurrently must be a boolean"
          else .error "validation failed: invalid enum value for dataWarehouseType"
        | _ => .error "validation failed: dataWarehouseType must be a string"
      else .error "validation failed: name must contain at least 1 character"
    | _ => .error "validation failed: name must be a string"
  | _ => .error "validation failed: expected object"

/-- The remote service as seen by one tool invocation: the responses the
pagination loop would receive, and the response to the single datamart
POST. -/
structure Remote where
  pagServer : List (HttpResponse PaginationResponse)
  postResponse : HttpResponse DatamartDefinition

/-- The call-tool dispatch handler: missing arguments are rejected
first, then the tool name is matched; each matched tool validates its
arguments before any request, and an unmatched name throws
`Unknown tool name: <name>`. The result carries the trace of issued
HTTP requests (`none` only when the modelled pagination server list is
exhausted before the loop finishes). -/
def handleCallTool (name : String) (args : Option JsVal) (remote : Remote) :
    Option (Except String JsVal × List TraceRequest) :=
  match args with
  | none => some (.error "Arguments are required", [])
  | some a =>
    if name = "list_connections" then
      match parseListConnectionsInput a with
      | .error e => some (.error e, [])
      | .ok ct =>
        match listConnections ct remote.pagServer with
        | none => none
        | some (.error e, reqs) => some (.error e, reqs)
        | some (.ok conns, reqs) => some (.ok (.arr conns), reqs)
    else if name = "create_datamart_definition" then
      match parseCreateDatamartDefinitionInput a with
      | .error e => some (.error e, [])
      | .ok input =>
        match createDatamartDefinition input remote.postResponse with
        | (.error e, reqs) => some (.error e, reqs)
        | (.ok d, reqs) => some (.ok d.toJsVal, reqs)
    else
      some (.error ("Unknown tool name: " ++ name), [])
theorem assocLookup_map_update_self {v : String} (ps : List (String × String))
    (k : String) (hmem : ps.any (fun p => p.1 = k) = true) :
    assocLookup (ps.map (fun p => if p.1 = k then (k, v) else p)) k = some v := by
  induction ps with
  | nil => simp at hmem
  | cons head tail ih =>
    obtain ⟨a, b⟩ := head
    by_cases hk : a = k
    · subst hk
      simp only [List.map_cons]
      rw [if_pos trivial]
      show (if a = a then some v else _) = some v
      rw [if_pos rfl]
    · have htail : tail.any (fun p => p.1 = k) = true := by
        simp [hk] at hmem
        simpa using hmem
      simp only [List.map_cons]
      rw [show (if (a, b).1 = k then (k, v) else (a, b)) = (a, b) from if_neg hk]
      show (if a = k then some b else _) = some v
      rw [if_neg hk]
      exact ih htail

theorem assocLookup_map_update_ne {v : String} (ps : List (String × String))
    (k k' : String) (hne : k' ≠ k) :
    assocLookup (ps.map (fun p => if p.1 = k then (k, v) else p)) k' =
      assocLookup ps k' := by
  induction ps with
  | nil => rfl
  | cons head tail ih =>
    obtain ⟨a, b⟩ := head
    simp only [List.map_cons]
    by_cases hk : a = k
    · rw [show (if (a, b).1 = k then (k, v) else (a, b)) = (k, v) from if_pos hk]
      have hkk' : ¬k = k' := fun h => hne h.symm
      have hak' : ¬a = k' := by
        rw [hk]
        exact hkk'
      show (if k = k' then some v else _) = (if a = k' then some b else _)
      rw [if_neg hkk', if_neg hak']
      exact ih
    · rw [show (if (a, b).1 = k then (k, v) else (a, b)) = (a, b) from if_neg hk]
      show (if a = k' then some b else _) = (if a = k' then some b else _)
      by_cases hk' : a = k'
      · rw [if_pos hk', if_pos hk']
      · rw [if_neg hk', if_neg hk']
        exact ih

theorem assocLookup_append_of_not_mem {α : Type} (ps qs : List (String × α))
    (k : String) (h : ∀ kv ∈ ps, kv.1 ≠ k) :
    assocLookup (ps ++ qs) k = assocLookup qs k := by
  induction ps with
  | nil => rfl
  | cons head tail ih =>
    have hhead : head.1 ≠ k := h head (by simp)
    have htail : ∀ kv ∈ tail, kv.1 ≠ k := fun kv hkv => h kv (by simp [hkv])
    obtain ⟨a, b⟩ := head
    show (if a = k then some b else _) = _
    rw [if_neg hhead]
    exact ih htail

theorem assocLookup_none_of_all_ne {α : Type} (ps : List (String × α))
    (k : String) (h : ∀ kv ∈ ps, kv.1 ≠ k) :
    assocLookup ps k = none := by
  have := assocLookup_append_of_not_mem ps [] k h
  simpa using this

theorem assocLookup_append_single_ne {α : Type} (ps : List (String × α))
    (k k' : String) (v : α) (hne : k' ≠ k) :
    assocLookup (ps ++ [(k, v)]) k' = assocLookup ps k' := by
  induction ps with
  | nil =>
    have hkk' : ¬k = k' := fun h => hne h.symm
    show (if k = k' then some v else _) = none
    rw [if_neg hkk']
    rfl
  | cons head tail ih =>
    obtain ⟨a, b⟩ := head
    show (if a = k' then some b else _) = (if a = k' then some b else _)
    by_cases ha : a = k'
    · rw [if_pos ha, if_pos ha]
    · rw [if_neg ha, if_neg ha]
      exact ih

theorem assocLookup_setParam_self (ps : List (String × String)) (k v : String) :
    assocLookup (setParam ps k v) k = some v := by
  unfold setParam
  by_cases hmem : ps.any (fun p => p.1 = k) = true
  · rw [if_pos hmem]
    exact assocLookup_map_update_self ps k hmem
  · rw [if_neg hmem]
    have hall : ∀ kv ∈ ps, kv.1 ≠ k := by
      intro kv hkv hc
      exact hmem (List.any_eq_true.mpr ⟨kv, hkv, by simp [hc]⟩)
    rw [assocLookup_append_of_not_mem ps [(k, v)] k hall]
    simp [assocLookup]

theorem assocLookup_setParam_ne (ps : List (String × String)) (k v k' : String)
    (hne : k' ≠ k) :
    assocLookup (setParam ps k v) k' = assocLookup ps k' := by
  unfold setParam
  by_cases hmem : ps.any (fun p => p.1 = k) = true
  · rw [if_pos hmem]
    exact assocLookup_map_update_ne ps k k' hne
  · rw [if_neg hmem]
    exact assocLookup_append_single_ne ps k k' v hne

theorem mkPageRequest_limit (u : String) (ps : List (String × String))
    (o : RequestOptions) (cursor : Option String) :
    assocLookup (mkPageRequest u ps o cursor).params "limit" = some "5" := by
  cases cursor with
  | none =>
    show assocLookup (setParam ps "limit" "5") "limit" = some "5"
    exact assocLookup_setParam_self ps "limit" "5"
  | some c =>
    show assocLookup (setParam (setParam ps "limit" "5") "cursor" c) "limit" = some "5"
    rw [assocLookup_setParam_ne _ "cursor" c "limit" (by decide)]
    exact assocLookup_setParam_self ps "limit" "5"

theorem mkPageRequest_cursor_absent (u : String) (ps : List (String × String))
    (o : RequestOptions) (h : ∀ kv ∈ ps, kv.1 ≠ "cursor") :
    assocLookup (mkPageRequest u ps o none).params "cursor" = none := by
  show assocLookup (setParam ps "limit" "5") "cursor" = none
  rw [assocLookup_setParam_ne _ "limit" "5" "cursor" (by decide)]
  exact assocLookup_none_of_all_ne ps "cursor" h

theorem mkPageRequest_cursor_value (u : String) (ps : List (String × String))
    (o : RequestOptions) (c : String) :
    assocLookup (mkPageRequest u ps o (some c)).params "cursor" = some c := by
  show assocLookup (setParam (setParam ps "limit" "5") "cursor" c) "cursor" = some c
  exact assocLookup_setParam_self _ "cursor" c

/-- A terminating page sequence: every response before the last carries
a non-null cursor and the last carries a null cursor. -/
def ChainTerm : List PaginationResponse → Prop
  | [] => False
  | [p] => p.next_cursor = none
  | p :: rest => p.next_cursor ≠ none ∧ ChainTerm rest

/-- The requests the pagination loop issues for a given page sequence,
starting from the given current cursor: each page's response cursor
becomes the next request's cursor. -/
def expectedReqs (url : String) (params : List (String × String))
    (options : RequestOptions) :
    Option String → List PaginationResponse → List TraceRequest
  | _, [] => []
  | cursor, p :: rest =>
    mkPageRequest url params options cursor ::
      expectedReqs url params options p.next_cursor rest

theorem expectedReqs_length (url : String) (params : List (String × String))
    (options : RequestOptions) (cursor : Option String)
    (pages : List PaginationResponse) :
    (expectedReqs url params options cursor pages).length = pages.length := by
  induction pages generalizing cursor with
  | nil => rfl
  | cons p rest ih => simp [expectedReqs, ih]

theorem expectedReqs_get_zero (url : String) (params : List (String × String))
    (options : RequestOptions) (cursor : Option String)
    (p : PaginationResponse) (rest : List PaginationResponse)
    (h : 0 < (expectedReqs url params options cursor (p :: rest)).length) :
    (expectedReqs url params options cursor (p :: rest)).get ⟨0, h⟩ =
      mkPageRequest url params options cursor := rfl

theorem expectedReqs_get_succ (url : String) (params : List (String × String))
    (options : RequestOptions) :
    ∀ (pages : List PaginationResponse) (cursor : Option String) (i : Nat)
      (h : i + 1 < (expectedReqs url params options cursor pages).length)
      (h2 : i < pages.length),
      (expectedReqs url params options cursor pages).get ⟨i + 1, h⟩ =
        mkPageRequest url params options (pages.get ⟨i, h2⟩).next_cursor := by
  intro pages
  induction pages with
  | nil => intro cursor i h h2; simp [expectedReqs] at h
  | cons p rest ih =>
    intro cursor i h h2
    cases i with
    | zero =>
      cases rest with
      | nil => simp [expectedReqs] at h
      | cons q rest2 =>
        have hlen : 0 < (expectedReqs url params options p.next_cursor (q :: rest2)).length := by
          simp [expectedReqs]
        show (expectedReqs url params options p.next_cursor (q :: rest2)).get ⟨0, hlen⟩ = _
        rfl
    | succ j =>
      have hlen : j + 1 < (expectedReqs url params options p.next_cursor rest).length := by
        simpa [expectedReqs] using h
      have h2a : j < rest.length := by simpa using h2
      show (expectedReqs url params options p.next_cursor rest).get ⟨j + 1, hlen⟩ = _
      exact ih p.next_cursor j hlen h2a

theorem withPaginationGo_cons_null_cursor (url : String)
    (params : List (String × String)) (options : RequestOptions)
    (cursor : Option String) (pitems : List JsVal)
    (rest : List (HttpResponse PaginationResponse)) :
    withPaginationGo url params options cursor
        (HttpResponse.mk 200 (PaginationResponse.mk pitems none) :: rest) =
      some (Except.ok pitems, [mkPageRequest url params options cursor]) := rfl

theorem withPaginationGo_cons_some_cursor (url : String)
    (params : List (String × String)) (options : RequestOptions)
    (cursor : Option String) (pitems : List JsVal) (c : String)
    (rest : List (HttpResponse PaginationResponse)) :
    withPaginationGo url params options cursor
        (HttpResponse.mk 200 (PaginationResponse.mk pitems (some c)) :: rest) =
      match withPaginationGo url params options (some c) rest with
      | none => none
      | some (.error e, reqs) =>
          some (.error e, mkPageRequest url params options cursor :: reqs)
      | some (.ok items, reqs) =>
          some (.ok (pitems ++ items), mkPageRequest url params options cursor :: reqs) := rfl

/-- Core correctness of the pagination loop: run against a terminating
page sequence served with 2xx statuses, it returns the concatenation of
all pages' items and issues exactly the expected request per page. -/
theorem withPaginationGo_spec (url : String) (params : List (String × String))
    (options : RequestOptions) :
    ∀ (pages : List PaginationResponse) (cursor : Option String),
    ChainTerm pages →
    withPaginationGo url params options cursor
        (pages.map (fun p => HttpResponse.mk 200 p)) =
      some (Except.ok (pages.map (fun p => p.items)).flatten,
            expectedReqs url params options cursor pages) := by
  intro pages
  induction pages with
  | nil => intro cursor h; exact absurd h (by simp [ChainTerm])
  | cons p rest ih =>
    intro cursor h
    obtain ⟨pitems, pnext⟩ := p
    cases rest with
    | nil =>
      have hnone : pnext = none := h
      subst hnone
      simp only [List.map_cons, List.map_nil]
      rw [withPaginationGo_cons_null_cursor]
      simp [expectedReqs]
    | cons q rest2 =>
      have hcur : pnext ≠ none :=
        (show ChainTerm (PaginationResponse.mk pitems pnext :: q :: rest2) from h).1
      have hrest : ChainTerm (q :: rest2) :=
        (show ChainTerm (PaginationResponse.mk pitems pnext :: q :: rest2) from h).2
      cases pnext with
      | none => exact absurd rfl hcur
      | some c =>
        have hrec := ih (some c) hrest
        simp only [List.map_cons] at hrec ⊢
        rw [withPaginationGo_cons_some_cursor, hrec]
        simp [expectedReqs]

theorem withPaginationGo_cons (url : String) (params : List (String × String))
    (options : RequestOptions) (cursor : Option String)
    (r : HttpResponse PaginationResponse)
    (rest : List (HttpResponse PaginationResponse)) :
    withPaginationGo url params options cursor (r :: rest) =
      match troccoRequest r with
      | .error e => some (.error e, [mkPageRequest url params options cursor])
      | .ok page =>
        match page.next_cursor with
        | none => some (.ok page.items, [mkPageRequest url params options cursor])
        | some c =>
          match withPaginationGo url params options (some c) rest with
          | none => none
          | some (.error e, reqs) =>
              some (.error e, mkPageRequest url params options cursor :: reqs)
          | some (.ok items, reqs) =>
              some (.ok (page.items ++ items),
                    mkPageRequest url params options cursor :: reqs) := rfl

theorem troccoRequest_ok_body {T : Type} (r : HttpResponse T) (v : T)
    (h : troccoRequest r = Except.ok v) : v = r.body := by
  unfold troccoRequest at h
  by_cases h2 : 200 ≤ r.status ∧ r.status ≤ 299
  · rw [if_pos h2] at h
    injection h with h3
    exact h3.symm
  · rw [if_neg h2] at h
    cases h

theorem withPaginationGo_isSome (url : String) (params : List (String × String))
    (options : RequestOptions) :
    ∀ (server : List (HttpResponse PaginationResponse)) (cursor : Option String),
    (∃ i, ∃ h : i < server.length, (server.get ⟨i, h⟩).body.next_cursor = none) →
    (withPaginationGo url params options cursor server).isSome = true := by
  intro server
  induction server with
  | nil =>
    rintro cursor ⟨i, h, _⟩
    exact absurd h (by simp)
  | cons r rest ih =>
    rintro cursor ⟨i, hi, hnull⟩
    rw [withPaginationGo_cons]
    cases htr : troccoRequest r with
    | error e => simp
    | ok page =>
      cases hnc : page.next_cursor with
      | none => simp [hnc]
      | some c =>
        have hpage : page = r.body := troccoRequest_ok_body r page htr
        have hwitness :
            ∃ j, ∃ hj : j < rest.length, (rest.get ⟨j, hj⟩).body.next_cursor = none := by
          cases i with
          | zero =>
            exfalso
            have hr : r.body.next_cursor = none := hnull
            rw [← hpage, hnc] at hr
            cases hr
          | succ j => exact ⟨j, by simpa using hi, by simpa using hnull⟩
        have hrecsome := ih (some c) hwitness
        cases hrec : withPaginationGo url params options (some c) rest with
        | none => rw [hrec] at hrecsome; simp at hrecsome
        | some pr =>
          obtain ⟨rs, reqs⟩ := pr
          cases rs with
          | error e => simp [hnc, hrec]
          | ok items => simp [hnc, hrec]

theorem withPaginationGo_trace_length (url : String)
    (params : List (String × String)) (options : RequestOptions)
    (cursor : Option String) (r : HttpResponse PaginationResponse)
    (rest : List (HttpResponse PaginationResponse))
    (pr : Except String (List JsVal) × List TraceRequest)
    (h : withPaginationGo url params options cursor (r :: rest) = some pr) :
    0 < pr.2.length := by
  rw [withPaginationGo_cons] at h
  split at h
  · injection h with h'
    rw [← h']
    simp
  · split at h
    · injection h with h'
      rw [← h']
      simp
    · split at h
      · exact Option.noConfusion h
      · injection h with h'
        rw [← h']
        simp
      · injection h with h'
        rw [← h']
        simp

/-- C1: for a terminating page sequence (the first N-1 responses carry
non-null cursors and the last a null cursor, all with 2xx status), the
aggregator returns the concatenation of all pages' items in page order,
issues exactly N requests, the first without a cursor parameter and each
subsequent one carrying the prior page's cursor, and every request
targets the given URL with the fixed parameter limit="5". The N=1
instance (first cursor null, one request, items verbatim) is the
singleton case of the same statement. -/
theorem claim_pagination_completeness (url : String)
    (params : List (String × String)) (options : RequestOptions)
    (pages : List PaginationResponse)
    (hchain : ChainTerm pages)
    (hparams : ∀ kv ∈ params, kv.1 ≠ "cursor") :
    ∃ reqs : List TraceRequest,
      withPagination url params options
          (pages.map (fun p => HttpResponse.mk 200 p)) =
        some (Except.ok (pages.map (fun p => p.items)).flatten, reqs)
      ∧ reqs.length = pages.length
      ∧ (∀ i (h : i < reqs.length),
          (reqs.get ⟨i, h⟩).url = url
          ∧ assocLookup (reqs.get ⟨i, h⟩).params "limit" = some "5")
      ∧ (∀ h0 : 0 < reqs.length,
          assocLookup (reqs.get ⟨0, h0⟩).params "cursor" = none)
      ∧ (∀ i (h : i + 1 < reqs.length) (h2 : i < pages.length),
          assocLookup (reqs.get ⟨i + 1, h⟩).params "cursor" =
            (pages.get ⟨i, h2⟩).next_cursor) := by
  refine ⟨expectedReqs url params options none pages,
    withPaginationGo_spec url params options pages none hchain,
    expectedReqs_length url params options none pages, ?_, ?_, ?_⟩
  · intro i h
    cases i with
    | zero =>
      cases pages with
      | nil => simp [expectedReqs] at h
      | cons p rest =>
        rw [expectedReqs_get_zero]
        exact ⟨rfl, mkPageRequest_limit url params options none⟩
    | succ j =>
      have hlen := expectedReqs_length url params options none pages
      have h2 : j < pages.length := by omega
      rw [expectedReqs_get_succ url params options pages none j h h2]
      exact ⟨rfl, mkPageRequest_limit url params options _⟩
  · intro h0
    cases pages with
    | nil => simp [expectedReqs] at h0
    | cons p rest =>
      rw [expectedReqs_get_zero]
      exact mkPageRequest_cursor_absent url params options hparams
  · intro i h h2
    rw [expectedReqs_get_succ url params options pages none i h h2]
    cases hc : (pages.get ⟨i, h2⟩).next_cursor with
    | none => exact mkPageRequest_cursor_absent url params options hparams
    | some c => exact mkPageRequest_cursor_value url params options c

theorem claim_pagination_completeness_witness :
    ∃ reqs : List TraceRequest,
      withPagination "https://trocco.io/api/connections/bigquery" []
          (RequestOptions.mk none none)
          [HttpResponse.mk 200
             (PaginationResponse.mk [JsVal.str "a", JsVal.str "b"] (some "c1")),
           HttpResponse.mk 200 (PaginationResponse.mk [JsVal.str "d"] none)] =
        some (Except.ok [JsVal.str "a", JsVal.str "b", JsVal.str "d"], reqs)
      ∧ reqs.length = 2 := by
  obtain ⟨reqs, h1, h2, _⟩ :=
    claim_pagination_completeness "https://trocco.io/api/connections/bigquery" []
      (RequestOptions.mk none none)
      [PaginationResponse.mk [JsVal.str "a", JsVal.str "b"] (some "c1"),
       PaginationResponse.mk [JsVal.str "d"] none]
      (by exact ⟨by simp, rfl⟩) (by simp)
  refine ⟨reqs, ?_, h2⟩
  simpa using h1

/-- C2: the pagination loop always issues at least one request whenever
it produces a verdict, a 2xx response with an empty item list but a
non-null cursor makes it continue into the remaining responses (one more
request recorded), a 2xx response with a null cursor stops it
immediately regardless of item count or further responses, and whenever
some served response carries a null cursor the loop terminates with a
verdict. -/
theorem claim_pagination_termination :
    (∀ (url : String) (params : List (String × String)) (options : RequestOptions)
       (server : List (HttpResponse PaginationResponse))
       (res : Except String (List JsVal)) (trace : List TraceRequest),
       withPagination url params options server = some (res, trace) →
       0 < trace.length)
    ∧ (∀ (url : String) (params : List (String × String)) (options : RequestOptions)
         (cursor : Option String) (c : String)
         (rest : List (HttpResponse PaginationResponse)),
        withPaginationGo url params options cursor
            (HttpResponse.mk 200 (PaginationResponse.mk [] (some c)) :: rest) =
          (withPaginationGo url params options (some c) rest).map
            (fun pr => (pr.1, mkPageRequest url params options cursor :: pr.2)))
    ∧ (∀ (url : String) (params : List (String × String)) (options : RequestOptions)
         (cursor : Option String) (pitems : List JsVal)
         (rest : List (HttpResponse PaginationResponse)),
        withPaginationGo url params options cursor
            (HttpResponse.mk 200 (PaginationResponse.mk pitems none) :: rest) =
          some (Except.ok pitems, [mkPageRequest url params options cursor]))
    ∧ (∀ (url : String) (params : List (String × String)) (options : RequestOptions)
         (server : List (HttpResponse PaginationResponse)),
        (∃ i, ∃ h : i < server.length,
           (server.get ⟨i, h⟩).body.next_cursor = none) →
        (withPagination url params options server).isSome = true) := by
  refine ⟨?_, ?_, ?_, ?_⟩
  · intro url params options server res trace h
    cases server with
    | nil => exact absurd h (by simp [withPagination, withPaginationGo])
    | cons r rest =>
      exact withPaginationGo_trace_length url params options none r rest (res, trace) h
  · intro url params options cursor c rest
    rw [withPaginationGo_cons_some_cursor]
    cases hrec : withPaginationGo url params options (some c) rest with
    | none => rfl
    | some pr =>
      obtain ⟨rs, reqs⟩ := pr
      cases rs with
      | error e => rfl
      | ok items => rfl
  · intro url params options cursor pitems rest
    exact withPaginationGo_cons_null_cursor url params options cursor pitems rest
  · intro url params options server h
    exact withPaginationGo_isSome url params options server none h

theorem claim_pagination_termination_witness :
    (withPagination "https://trocco.io/api/connections/bigquery" []
        (RequestOptions.mk none none)
        [HttpResponse.mk 200 (PaginationResponse.mk [] none)]).isSome = true :=
  claim_pagination_termination.2.2.2 "https://trocco.io/api/connections/bigquery"
    [] (RequestOptions.mk none none)
    [HttpResponse.mk 200 (PaginationResponse.mk [] none)]
    ⟨0, by simp, rfl⟩

/-- C3: with every optional field populated, the outbound body of the
create-definition operation serializes to an object whose snake_case
keys correspond one-to-one to the camelCase input fields with the values
carried over unchanged, and the inbound reshaping of a full response
record reproduces every semantic value (it is a field-by-field
identity). -/
theorem claim_rename_round_trip (n w d : String) (b : Bool)
    (o : DatamartBigqueryOptionInput) :
    JsVal.serialize (buildCreateBody
        (CreateDatamartDefinitionInput.mk n w (some d) b (some o))) =
      some (JsVal.obj
        [ ("name", JsVal.str n)
        , ("data_warehouse_type", JsVal.str w)
        , ("description", JsVal.str d)
        , ("is_runnable_concurrently", JsVal.bool b)
        , ("datamart_bigquery_option", JsVal.obj
            [ ("bigquery_connection_id", JsVal.num o.bigqueryConnectionId)
            , ("query_mode", JsVal.str o.queryMode)
            , ("query", JsVal.str o.query)
            , ("destination_dataset", JsVal.str o.destinationDataset)
            , ("destination_table", JsVal.str o.destinationTable)
            , ("write_disposition", JsVal.str o.writeDisposition) ]) ])
    ∧ (∀ resp : DatamartDefinition, inboundMapDatamartDefinition resp = resp) := by
  constructor
  · rfl
  · intro resp
    rfl

/-- C10: when the input omits datamartBigqueryOption, the serialized
outbound body still contains the key datamart_bigquery_option, whose
value is the empty JSON object (all six nested reads yield undefined and
are dropped by serialization), rather than the key being omitted. -/
theorem claim_datamart_option_always_present (n w : String)
    (desc : Option String) (b : Bool) :
    JsVal.serialize (buildCreateBody
        (CreateDatamartDefinitionInput.mk n w desc b none)) =
      some (JsVal.obj
        ([("name", JsVal.str n), ("data_warehouse_type", JsVal.str w)]
          ++ (match desc with
              | none => []
              | some d => [("description", JsVal.str d)])
          ++ [("is_runnable_concurrently", JsVal.bool b),
              ("datamart_bigquery_option", JsVal.obj [])])) := by
  cases desc with
  | none => rfl
  | some d => rfl

/-- The body-serialization property exactly as the specification words
it: a present body value is always serialized into the outgoing request,
an absent one leads to the body field being omitted. -/
def BodySerializedWhenPresent : Prop :=
  ∀ (url : String) (opts : RequestOptions),
    (∀ v, opts.body = some v →
      (mkFetchRequest url opts).body = JsVal.serialize v)
    ∧ (opts.body = none → (mkFetchRequest url opts).body = none)

/-- C9 counterexample: a present but falsy body value — here the value
`false`, whose JSON serialization exists — is dropped by the truthiness
check `options.body ? ... : undefined`, so the claim as stated fails. -/
theorem claim_body_serialization_counterexample : ¬BodySerializedWhenPresent := by
  intro h
  have h2 := (h "https://trocco.io/api/datamart_definitions"
      (RequestOptions.mk none (some (JsVal.bool false)))).1
      (JsVal.bool false) rfl
  simp [mkFetchRequest, serializeBody, JsVal.truthy, JsVal.serialize] at h2

/-- C9 amended: a present and truthy body value is serialized into the
outgoing request (and its serialization exists); when the body is absent
or present but falsy (undefined, null, false, 0, or the empty string)
the body field is omitted entirely. -/
theorem claim_body_serialization_amended (url : String) (opts : RequestOptions) :
    (∀ v, opts.body = some v → v.truthy = true →
      (mkFetchRequest url opts).body = JsVal.serialize v
      ∧ (JsVal.serialize v).isSome = true)
    ∧ (opts.body = none → (mkFetchRequest url opts).body = none)
    ∧ (∀ v, opts.body = some v → v.truthy = false →
      (mkFetchRequest url opts).body = none) := by
  refine ⟨?_, ?_, ?_⟩
  · intro v hv ht
    constructor
    · show serializeBody opts.body = _
      rw [hv]
      simp [serializeBody, ht]
    · cases v with
      | undefined => exact absurd ht (by decide)
      | null => rfl
      | bool bb => rfl
      | num nn => rfl
      | str ss => rfl
      | arr xs => rfl
      | obj fs => rfl
  · intro hv
    show serializeBody opts.body = none
    rw [hv]
    rfl
  · intro v hv hf
    show serializeBody opts.body = none
    rw [hv]
    simp [serializeBody, hf]

theorem claim_body_serialization_amended_witness :
    (mkFetchRequest "https://trocco.io/api/datamart_definitions"
        (RequestOptions.mk (some "POST") (some (JsVal.obj [])))).body =
      JsVal.serialize (JsVal.obj []) :=
  ((claim_body_serialization_amended "https://trocco.io/api/datamart_definitions"
      (RequestOptions.mk (some "POST") (some (JsVal.obj [])))).1
    (JsVal.obj []) rfl rfl).1

theorem handleCallTool_list_eq (a : JsVal) (remote : Remote) :
    handleCallTool "list_connections" (some a) remote =
      match parseListConnectionsInput a with
      | .error e => some (.error e, [])
      | .ok ct =>
        match listConnections ct remote.pagServer with
        | none => none
        | some (.error e, reqs) => some (.error e, reqs)
        | some (.ok conns, reqs) => some (.ok (.arr conns), reqs) := rfl

theorem handleCallTool_create_eq (a : JsVal) (remote : Remote) :
    handleCallTool "create_datamart_definition" (some a) remote =
      match parseCreateDatamartDefinitionInput a with
      | .error e => some (.error e, [])
      | .ok input =>
        match createDatamartDefinition input remote.postResponse with
        | (.error e, reqs) => some (.error e, reqs)
        | (.ok d, reqs) => some (.ok d.toJsVal, reqs) := rfl

theorem createDatamartDefinition_eq (input : CreateDatamartDefinitionInput)
    (resp : HttpResponse DatamartDefinition) :
    createDatamartDefinition input resp =
      match troccoRequest resp with
      | .error e =>
          (.error e, [mkFetchRequest "https://trocco.io/api/datamart_definitions"
            (RequestOptions.mk (some "POST") (some (buildCreateBody input)))])
      | .ok d =>
          (.ok (inboundMapDatamartDefinition d),
           [mkFetchRequest "https://trocco.io/api/datamart_definitions"
            (RequestOptions.mk (some "POST") (some (buildCreateBody input)))]) := by
  unfold createDatamartDefinition
  cases troccoRequest resp with
  | error e => rfl
  | ok d => rfl

/-- C5: a 2xx response makes the HTTP wrapper return the parsed body; a
non-2xx response makes it fail with a generic error carrying only the
numeric status code (independent of the body, with no 4xx/5xx
distinction); and a status-500 response to a list-connections
invocation propagates as an error referencing status 500, after one
request to /connections/bigquery with limit=5. -/
theorem claim_http_failure_propagation (resp : HttpResponse JsVal)
    (page : PaginationResponse) (post : HttpResponse DatamartDefinition) :
    (200 ≤ resp.status ∧ resp.status ≤ 299 →
      troccoRequest resp = Except.ok resp.body)
    ∧ (¬(200 ≤ resp.status ∧ resp.status ≤ 299) →
      troccoRequest resp =
        Except.error ("TROCCO API request failed: " ++ toString resp.status))
    ∧ handleCallTool "list_connections"
        (some (JsVal.obj [("connectionType", JsVal.str "bigquery")]))
        (Remote.mk [HttpResponse.mk 500 page] post) =
      some (Except.error "TROCCO API request failed: 500",
        [TraceRequest.mk "https://trocco.io/api/connections/bigquery"
          [("limit", "5")] "GET" none]) := by
  refine ⟨?_, ?_, ?_⟩
  · intro h
    unfold troccoRequest
    rw [if_pos h]
  · intro h
    unfold troccoRequest
    rw [if_neg h]
  · have h0 : handleCallTool "list_connections"
        (some (JsVal.obj [("connectionType", JsVal.str "bigquery")]))
        (Remote.mk [HttpResponse.mk 500 page] post) =
      some (Except.error ("TROCCO API request failed: " ++ toString (500 : Nat)),
        [TraceRequest.mk "https://trocco.io/api/connections/bigquery"
          [("limit", "5")] "GET" none]) := rfl
    have hs : ("TROCCO API request failed: " ++ toString (500 : Nat)) =
        "TROCCO API request failed: 500" := rfl
    rw [hs] at h0
    exact h0

theorem claim_http_failure_propagation_witness :
    troccoRequest (HttpResponse.mk 500 JsVal.null) =
      Except.error "TROCCO API request failed: 500" := by
  have h := (claim_http_failure_propagation (HttpResponse.mk 500 JsVal.null)
      (PaginationResponse.mk [] none)
      (HttpResponse.mk 200 (DatamartDefinition.mk 0 "" "" "" false none))).2.1
    (by decide)
  exact h

/-- C4: the list-connections operation maps every raw record through
the three-key projection, and on any record carrying the three keys the
projection yields an object with exactly the keys id, name and
description, their values taken unchanged from the record — any other
fields the record carries are dropped. -/
theorem claim_field_projection (ct : String) (records : List JsVal) :
    (∃ reqs, listConnections ct
        [HttpResponse.mk 200 (PaginationResponse.mk records none)] =
      some (Except.ok (records.map projectConnection), reqs))
    ∧ (∀ r vid vn vd, jsGet r "id" = some vid → jsGet r "name" = some vn →
        jsGet r "description" = some vd →
        projectConnection r =
          JsVal.obj [("id", vid), ("name", vn), ("description", vd)]) := by
  constructor
  · refine ⟨[mkPageRequest ("https://trocco.io/api/connections/" ++ ct) []
      (RequestOptions.mk none none) none], ?_⟩
    rfl
  · intro r vid vn vd hid hn hd
    unfold projectConnection jsAccess
    rw [hid, hn, hd]
    rfl

theorem claim_field_projection_witness :
    projectConnection (JsVal.obj
      [("id", JsVal.str "1"), ("name", JsVal.str "n"),
       ("description", JsVal.str "d"), ("extra", JsVal.num 7)]) =
      JsVal.obj [("id", JsVal.str "1"), ("name", JsVal.str "n"),
                 ("description", JsVal.str "d")] :=
  (claim_field_projection "bigquery" []).2
    (JsVal.obj
      [("id", JsVal.str "1"), ("name", JsVal.str "n"),
       ("description", JsVal.str "d"), ("extra", JsVal.num 7)])
    (JsVal.str "1") (JsVal.str "n") (JsVal.str "d") rfl rfl rfl

theorem handleCallTool_unknown_eq (name : String) (a : JsVal) (remote : Remote)
    (h1 : name ≠ "list_connections")
    (h2 : name ≠ "create_datamart_definition") :
    handleCallTool name (some a) remote =
      some (Except.error ("Unknown tool name: " ++ name), []) := by
  simp only [handleCallTool]
  rw [if_neg h1, if_neg h2]

/-- C6: a list-connections invocation whose connectionType value lies
outside the closed enumeration is rejected by schema validation, with
no HTTP request issued. -/
theorem claim_validation_rejection (ct : String) (remote : Remote)
    (hct : ct ∉ connectionTypes) :
    handleCallTool "list_connections"
        (some (JsVal.obj [("connectionType", JsVal.str ct)])) remote =
      some (Except.error
        "validation failed: invalid enum value for connectionType", []) := by
  have hparse : parseListConnectionsInput
      (JsVal.obj [("connectionType", JsVal.str ct)]) =
      Except.error "validation failed: invalid enum value for connectionType" := by
    show (if ct ∈ connectionTypes then Except.ok ct
      else Except.error "validation failed: invalid enum value for connectionType") = _
    rw [if_neg hct]
  rw [handleCallTool_list_eq, hparse]

theorem claim_validation_rejection_witness :
    handleCallTool "list_connections"
        (some (JsVal.obj [("connectionType", JsVal.str "oracle")]))
        (Remote.mk []
          (HttpResponse.mk 200 (DatamartDefinition.mk 0 "" "" "" false none))) =
      some (Except.error
        "validation failed: invalid enum value for connectionType", []) :=
  claim_validation_rejection "oracle"
    (Remote.mk []
      (HttpResponse.mk 200 (DatamartDefinition.mk 0 "" "" "" false none)))
    (by decide)

/-- C7: an invocation carrying arguments whose tool name is neither
list_connections nor create_datamart_definition fails with an
unknown-tool error naming the requested tool, with no HTTP request
issued. -/
theorem claim_unknown_tool (name : String) (a : JsVal) (remote : Remote)
    (h : name ∉ ["list_connections", "create_datamart_definition"]) :
    handleCallTool name (some a) remote =
      some (Except.error ("Unknown tool name: " ++ name), []) := by
  have h1 : name ≠ "list_connections" := by
    intro hc
    exact h (by simp [hc])
  have h2 : name ≠ "create_datamart_definition" := by
    intro hc
    exact h (by simp [hc])
  exact handleCallTool_unknown_eq name a remote h1 h2

theorem claim_unknown_tool_witness :
    handleCallTool "delete_connection" (some (JsVal.obj []))
        (Remote.mk []
          (HttpResponse.mk 200 (DatamartDefinition.mk 0 "" "" "" false none))) =
      some (Except.error "Unknown tool name: delete_connection", []) := by
  have h := claim_unknown_tool "delete_connection" (JsVal.obj [])
    (Remote.mk []
      (HttpResponse.mk 200 (DatamartDefinition.mk 0 "" "" "" false none)))
    (by decide)
  exact h

/-- C8: an input with dataWarehouseType = "bigquery" that omits the
datamartBigqueryOption block but is otherwise well-formed passes schema
validation (the documented conditional requirement is not enforced) and
the POST to /datamart_definitions is issued, its body carrying the empty
nested option object. -/
theorem claim_conditional_option_not_enforced (n d : String) (b : Bool)
    (remote : Remote) (hn : n.length ≥ 1) :
    parseCreateDatamartDefinitionInput (JsVal.obj
        [ ("name", JsVal.str n)
        , ("dataWarehouseType", JsVal.str "bigquery")
        , ("description", JsVal.str d)
        , ("isRunnableConcurrently", JsVal.bool b)]) =
      Except.ok (CreateDatamartDefinitionInput.mk n "bigquery" (some d) b none)
    ∧ ∃ res, handleCallTool "create_datamart_definition"
        (some (JsVal.obj
          [ ("name", JsVal.str n)
          , ("dataWarehouseType", JsVal.str "bigquery")
          , ("description", JsVal.str d)
          , ("isRunnableConcurrently", JsVal.bool b)])) remote =
      some (res,
        [TraceRequest.mk "https://trocco.io/api/datamart_definitions" [] "POST"
          (some (JsVal.obj
            [ ("name", JsVal.str n)
            , ("data_warehouse_type", JsVal.str "bigquery")
            , ("description", JsVal.str d)
            , ("is_runnable_concurrently", JsVal.bool b)
            , ("datamart_bigquery_option", JsVal.obj []) ]))]) := by
  have hp : parseCreateDatamartDefinitionInput (JsVal.obj
      [ ("name", JsVal.str n)
      , ("dataWarehouseType", JsVal.str "bigquery")
      , ("description", JsVal.str d)
      , ("isRunnableConcurrently", JsVal.bool b)]) =
      Except.ok (CreateDatamartDefinitionInput.mk n "bigquery" (some d) b none) := by
    show (if n.length ≥ 1 then
        Except.ok (CreateDatamartDefinitionInput.mk n "bigquery" (some d) b none)
      else Except.error "validation failed: name must contain at least 1 character") = _
    rw [if_pos hn]
  refine ⟨hp, ?_⟩
  cases htr : troccoRequest remote.postResponse with
  | error e =>
    refine ⟨Except.error e, ?_⟩
    rw [handleCallTool_create_eq]
    simp only [hp, createDatamartDefinition_eq, htr]
    rfl
  | ok dd =>
    refine ⟨Except.ok (inboundMapDatamartDefinition dd).toJsVal, ?_⟩
    rw [handleCallTool_create_eq]
    simp only [hp, createDatamartDefinition_eq, htr]
    rfl

theorem claim_conditional_option_not_enforced_witness :
    parseCreateDatamartDefinitionInput (JsVal.obj
        [ ("name", JsVal.str "x")
        , ("dataWarehouseType", JsVal.str "bigquery")
        , ("description", JsVal.str "desc")
        , ("isRunnableConcurrently", JsVal.bool true)]) =
      Except.ok (CreateDatamartDefinitionInput.mk "x" "bigquery" (some "desc") true none)
    ∧ ∃ res, handleCallTool "create_datamart_definition"
        (some (JsVal.obj
          [ ("name", JsVal.str "x")
          , ("dataWarehouseType", JsVal.str "bigquery")
          , ("description", JsVal.str "desc")
          , ("isRunnableConcurrently", JsVal.bool true)]))
        (Remote.mk []
          (HttpResponse.mk 200 (DatamartDefinition.mk 0 "" "" "" false none))) =
      some (res,
        [TraceRequest.mk "https://trocco.io/api/datamart_definitions" [] "POST"
          (some (JsVal.obj
            [ ("name", JsVal.str "x")
            , ("data_warehouse_type", JsVal.str "bigquery")
            , ("description", JsVal.str "desc")
            , ("is_runnable_concurrently", JsVal.bool true)
            , ("datamart_bigquery_option", JsVal.obj []) ]))]) :=
  claim_conditional_option_not_enforced "x" "desc" true
    (Remote.mk []
      (HttpResponse.mk 200 (DatamartDefinition.mk 0 "" "" "" false none)))
    (by decide)
